import Mathlib

/-!
Shallow embedding of `ads_citation_utils.py`: a thin client over the NASA ADS
search API with three functions, `get_ads_paper_pubdate` (publication-date
lookup), `get_ads_citing_papers` (citation fetcher) and
`plot_ADS_num_citations_by_time` (time-series plotter).

Modelling conventions:
  * An HTTP response is a status code plus an already-decoded body; the body
    of a search response is the list of documents under
    `data["response"]["docs"]`.
  * A JSON document is modelled by `JsonDoc`: each field is an `Option`,
    `none` meaning the key is absent from the JSON object.
  * Python exceptions (KeyError, IndexError, ValueError, AttributeError) are
    modelled by `Except.error` with a string naming the exception; a normal
    return is `Except.ok`.
  * Python string comparison (`<`, `>`) is code-point lexicographic; it is
    modelled by the executable `pyLt` on the character list of the string,
    and `pyStrLt_iff` proves it equivalent to the order `<` on `String`.
  * Python `str.split(sep)` for a one-character separator is modelled by the
    executable `pySplit`.
  * `int(...)` on the year/month components is modelled by `charsToNat?`;
    the components arising from splitting a pubdate on `-` never carry
    signs, underscores or whitespace, so the two agree on this data (both
    reject "Unknown", "", and any non-digit component).
-/

deriving instance DecidableEq for Except

namespace AdsCitationUtils

/-- Python string comparison `s < t`: code-point lexicographic order on the
characters, a strict prefix comparing smaller. -/
def pyLt : List Char → List Char → Bool
  | [], [] => false
  | [], _ :: _ => true
  | _ :: _, [] => false
  | a :: as, b :: bs => decide (a < b) || (decide (a = b) && pyLt as bs)

/-- Python `s < t` on `String`. -/
def pyStrLt (s t : String) : Bool :=
  pyLt s.data t.data

/-- Python `s.split(sep)` for a one-character separator: every occurrence of
the separator starts a new piece; the result is always nonempty and empty
pieces are kept (`"".split('-') == [""]`, `"--".split('-') == ["","",""]`). -/
def pySplit (sep : Char) : List Char → List (List Char)
  | [] => [[]]
  | c :: cs =>
    if c = sep then
      [] :: pySplit sep cs
    else
      match pySplit sep cs with
      | [] => [[c]]
      | p :: ps => (c :: p) :: ps

/-- Python `int(text)` on a pubdate component: all-digit text parses in base
ten; empty or non-digit text (such as `"Unknown"`) is a ValueError, modelled
as `none`. -/
def charsToNat? (cs : List Char) : Option Nat :=
  if cs.isEmpty then none
  else if cs.all Char.isDigit then
    some (cs.foldl (fun n c => n * 10 + (c.toNat - 48)) 0)
  else none

/-- An HTTP response: status code and decoded body. -/
structure HttpResponse (α : Type) where
  status_code : Nat
  body : α
deriving Repr, DecidableEq

/-- One JSON document from `data["response"]["docs"]`. A `none` field models
the key being absent from the JSON object. -/
structure JsonDoc where
  title : Option (List String)
  bibcode : Option String
  pubdate : Option String
deriving Repr, DecidableEq

/-- One row of the returned table: columns `title`, `bibcode`, `year`,
`month`. -/
structure CitingPaperRecord where
  title : String
  bibcode : String
  year : Nat
  month : Nat
deriving Repr, DecidableEq

/-- `get_ads_paper_pubdate`: on status 200 it reads
`data["response"]["docs"][0]` — an IndexError when `docs` is empty — and
returns the `pubdate` field if present, `None` otherwise; on any other
status it returns `None`. -/
def get_ads_paper_pubdate (resp : HttpResponse (List JsonDoc)) :
    Except String (Option String) :=
  if resp.status_code = 200 then
    match resp.body with
    | [] => Except.error "IndexError"
    | doc :: _ => Except.ok doc.pubdate
  else
    Except.ok none

/-- The date-range test of line 73 of the source:
`(cited_pubdate is None) or (pubdate < cited_pubdate) or (pubdate > now)`. -/
def discardDoc (cited : Option String) (now pubdate : String) : Bool :=
  match cited with
  | none => true
  | some c => pyStrLt pubdate c || pyStrLt now pubdate

/-- Lines 76-80 of the source: `year, month, _ = pubdate.split('-')` (a
ValueError unless the split has exactly three parts), `int(year)`,
`int(month)` (a ValueError on non-numeric text), and the `month == 0`
normalization. -/
def parse_pubdate (pubdate : String) : Except String (Nat × Nat) :=
  match pySplit '-' pubdate.data with
  | [y, m, _] =>
    match charsToNat? y, charsToNat? m with
    | some yn, some mn => Except.ok (yn, if mn = 0 then 1 else mn)
    | _, _ => Except.error "ValueError"
  | _ => Except.error "ValueError"

/-- The body of the `for paper in docs` loop for one document: read
`paper["title"][0]` (KeyError if the key is absent, IndexError if the list
is empty), `paper["bibcode"]` (KeyError if absent), default a missing
`pubdate` to `"Unknown"`, apply the `remove_false` date filter (`continue`
modelled as `ok none`), then parse year and month. -/
def process_doc (remove_false : Bool) (cited : Option String) (now : String)
    (doc : JsonDoc) : Except String (Option CitingPaperRecord) :=
  match doc.title with
  | none => Except.error "KeyError: title"
  | some [] => Except.error "IndexError: title"
  | some (title :: _) =>
    match doc.bibcode with
    | none => Except.error "KeyError: bibcode"
    | some bib =>
      let pubdate := doc.pubdate.getD "Unknown"
      if remove_false && discardDoc cited now pubdate then
        Except.ok none
      else
        match parse_pubdate pubdate with
        | Except.error e => Except.error e
        | Except.ok (y, m) => Except.ok (some ⟨title, bib, y, m⟩)

/-- The `for paper in docs` loop: rows are appended one at a time to the
growing table (`papers.loc[len(papers.index)] = ...`), modelled by the
accumulator `acc`; the first exception aborts the whole call. -/
def process_docs (remove_false : Bool) (cited : Option String) (now : String)
    (acc : List CitingPaperRecord) :
    List JsonDoc → Except String (List CitingPaperRecord)
  | [] => Except.ok acc
  | d :: ds =>
    match process_doc remove_false cited now d with
    | Except.error e => Except.error e
    | Except.ok none => process_docs remove_false cited now acc ds
    | Except.ok (some r) => process_docs remove_false cited now (acc ++ [r]) ds

/-- The fetcher's return value: the failure paths return the Python list
`[]` (not a DataFrame), the success path returns the DataFrame of rows. -/
inductive FetchResult where
  | emptyList : FetchResult
  | table : List CitingPaperRecord → FetchResult
deriving Repr, DecidableEq

/-- The external world a fetch call observes: the response the pubdate
lookup would receive, today's date string (`datetime.today()` formatted
`%Y-%m-%d`), and the response the citing-papers query would receive. -/
structure FetchInput where
  lookup : HttpResponse (List JsonDoc)
  now : String
  citing : HttpResponse (List JsonDoc)
deriving Repr, DecidableEq

/-- Lines 61-87 of the source: issue the citing-papers query; on status 200
run the document loop starting from an empty table, otherwise print the
status and return `[]`. -/
def run_citing_query (remove_false : Bool) (cited : Option String)
    (inp : FetchInput) : Except String (Bool × FetchResult) :=
  if inp.citing.status_code = 200 then
    match process_docs remove_false cited inp.now [] inp.citing.body with
    | Except.error e => Except.error e
    | Except.ok rows => Except.ok (true, FetchResult.table rows)
  else
    Except.ok (true, FetchResult.emptyList)

/-- `get_ads_citing_papers`: when `remove_false` is set, first look up the
cited paper's pubdate; `None` aborts with `[]` before the citing-papers
query is ever issued. The `Bool` component records whether the
citing-papers HTTP request was made. -/
def get_ads_citing_papers (remove_false : Bool) (inp : FetchInput) :
    Except String (Bool × FetchResult) :=
  if remove_false then
    match get_ads_paper_pubdate inp.lookup with
    | Except.error e => Except.error e
    | Except.ok none => Except.ok (false, FetchResult.emptyList)
    | Except.ok (some c) => run_citing_query remove_false (some c) inp
  else
    run_citing_query false none inp

/-- The grouping key of `plot_ADS_num_citations_by_time`: `['year']`, plus
`'month'` when the resolution is `'month'`. -/
def group_key (by_month : Bool) (r : CitingPaperRecord) : List Nat :=
  if by_month then [r.year, r.month] else [r.year]

/-- Lexicographic order on grouping keys (pandas sorts group keys). -/
def keyLe : List Nat → List Nat → Bool
  | [], _ => true
  | _ :: _, [] => false
  | a :: as, b :: bs => decide (a < b) || (decide (a = b) && keyLe as bs)

/-- Insertion step of sorting the grouping keys. -/
def insertKey (k : List Nat) : List (List Nat) → List (List Nat)
  | [] => [k]
  | x :: xs => if keyLe k x then k :: x :: xs else x :: insertKey k xs

/-- Sort a list of grouping keys. -/
def sortKeys : List (List Nat) → List (List Nat)
  | [] => []
  | x :: xs => insertKey x (sortKeys xs)

/-- `citing_papers.groupby(group_cols).title.count()`: the number of rows
per distinct grouping key, keys in ascending order. -/
def group_counts (by_month : Bool) (rows : List CitingPaperRecord) :
    List (List Nat × Nat) :=
  let keys := sortKeys ((rows.map (group_key by_month)).dedup)
  keys.map (fun k => (k, (rows.filter (fun r => group_key by_month r == k)).length))

/-- Line 102 of the source applied to a fetch result: a Python list (the
fetcher's failure return `[]`) has no `groupby` attribute, so the grouping
step raises AttributeError on it; a DataFrame is grouped and counted. -/
def plot_group_step (resolution : String) (fetched : FetchResult) :
    Except String (List (List Nat × Nat)) :=
  match fetched with
  | FetchResult.emptyList => Except.error "AttributeError"
  | FetchResult.table rows => Except.ok (group_counts (resolution == "month") rows)

/-- `plot_ADS_num_citations_by_time` up to its grouping/counting step: fetch
with the default `remove_false=True`, then group and count. Axis labelling
and bar rendering are display-only side effects and are not modelled. -/
def plot_ADS_num_citations_by_time (inp : FetchInput) (resolution : String) :
    Except String (List (List Nat × Nat)) :=
  match get_ads_citing_papers true inp with
  | Except.error e => Except.error e
  | Except.ok (_, fetched) => plot_group_step resolution fetched

/-- A `YYYY-MM-DD` string: exactly ten characters, digits everywhere except
dashes at positions 4 and 7. This is the shape of
`datetime.today().strftime('%Y-%m-%d')`. -/
def isYMD (s : String) : Bool :=
  match s.data with
  | [y1, y2, y3, y4, c1, m1, m2, c2, d1, d2] =>
    y1.isDigit && y2.isDigit && y3.isDigit && y4.isDigit &&
    (c1 == '-') && m1.isDigit && m2.isDigit && (c2 == '-') &&
    d1.isDigit && d2.isDigit
  | _ => false

/-- The per-document outcome seen from outside: the record a document
contributes to the table, or `none` when it is filtered out or errors. -/
def retained_record (remove_false : Bool) (cited : Option String)
    (now : String) (d : JsonDoc) : Option CitingPaperRecord :=
  match process_doc remove_false cited now d with
  | Except.ok (some r) => some r
  | _ => none

/-! ## Order bridge lemmas -/

/-- `pyLt` computes the strict order `List.lt` on character lists. -/
theorem pyLt_iff_lt (as : List Char) : ∀ bs : List Char, pyLt as bs = true ↔ List.lt as bs := by
  induction as with
  | nil =>
    intro bs
    cases bs with
    | nil =>
      simp only [pyLt, Bool.false_eq_true, false_iff]
      intro h
      nomatch h
    | cons b bs =>
      simp only [pyLt, true_iff]
      exact List.lt.nil b bs
  | cons a as ih =>
    intro bs
    cases bs with
    | nil =>
      simp only [pyLt, Bool.false_eq_true, false_iff]
      intro h
      nomatch h
    | cons b bs =>
      simp only [pyLt, Bool.or_eq_true, Bool.and_eq_true, decide_eq_true_eq, ih bs]
      constructor
      · rintro (hab | ⟨rfl, h⟩)
        · exact List.lt.head _ _ hab
        · exact List.lt.tail (lt_irrefl a) (lt_irrefl a) h
      · intro h
        cases h with
        | head _ _ hab => exact Or.inl hab
        | tail h1 h2 h3 =>
          exact Or.inr ⟨le_antisymm (le_of_not_lt h2) (le_of_not_lt h1), h3⟩

/-- `pyStrLt` computes the order `<` on `String`: the Python string
comparison of the source and the Lean string order agree. -/
theorem pyStrLt_iff (s t : String) : pyStrLt s t = true ↔ s < t := by
  rw [String.lt_iff_toList_lt]
  show pyLt s.data t.data = true ↔ List.Lex (· < ·) s.data t.data
  rw [← List.lt_iff_lex_lt]
  exact pyLt_iff_lt s.data t.data

/-- A decimal digit compares below `'U'`. -/
theorem digit_lt_U {c : Char} (h : c.isDigit = true) : c < 'U' := by
  simp only [Char.isDigit, Bool.and_eq_true, decide_eq_true_eq] at h
  have h9 : c ≤ '9' := h.2
  exact lt_of_le_of_lt h9 (by decide)

/-- Every `YYYY-MM-DD` string compares strictly below the sentinel
`"Unknown"`, because its first character is a digit. -/
theorem ymd_pyLt_unknown (s : String) (h : isYMD s = true) :
    pyStrLt s "Unknown" = true := by
  unfold isYMD at h
  split at h
  next y1 y2 y3 y4 c1 m1 m2 c2 d1 d2 heq =>
    simp only [Bool.and_eq_true] at h
    unfold pyStrLt
    rw [heq]
    have hu : "Unknown".data = 'U' :: ['n', 'k', 'n', 'o', 'w', 'n'] := rfl
    rw [hu]
    unfold pyLt
    rw [decide_eq_true (digit_lt_U h.1.1.1.1.1.1.1.1.1)]
    simp
  next =>
    simp at h

/-- `Prop` form of `ymd_pyLt_unknown`. -/
theorem ymd_lt_unknown (s : String) (h : isYMD s = true) : s < "Unknown" :=
  (pyStrLt_iff s "Unknown").mp (ymd_pyLt_unknown s h)

/-! ## Behaviour of the per-document step -/

/-- The date filter with a retrieved cited date tests exactly
`pubdate < cited or now < pubdate`. -/
theorem discardDoc_some_iff (c now p : String) :
    discardDoc (some c) now p = true ↔ (p < c ∨ now < p) := by
  simp [discardDoc, pyStrLt_iff]

/-- Unfolding of `process_doc` on a document with all three fields present. -/
theorem process_doc_some_pubdate (rf : Bool) (cited : Option String)
    (now t b p : String) (ts : List String) :
    process_doc rf cited now ⟨some (t :: ts), some b, some p⟩ =
      if rf && discardDoc cited now p then Except.ok none
      else
        match parse_pubdate p with
        | Except.error e => Except.error e
        | Except.ok (y, m) => Except.ok (some ⟨t, b, y, m⟩) := rfl

/-- On the `remove_false` path with a retrieved cited date, a document with
all fields present is skipped exactly when the filter test fires. -/
theorem process_doc_discarded_iff (t b c now p : String) (ts : List String) :
    process_doc true (some c) now ⟨some (t :: ts), some b, some p⟩ = Except.ok none
      ↔ (p < c ∨ now < p) := by
  rw [process_doc_some_pubdate, ← discardDoc_some_iff c now p]
  cases hd : discardDoc (some c) now p with
  | false =>
    cases hp : parse_pubdate p with
    | error e => simp [hp]
    | ok ym => obtain ⟨y, m⟩ := ym; simp [hp]
  | true => simp

/-! ## Claim theorems -/

/-- C1 counterexample: a record whose pubdate equals the cited pubdate
exactly is NOT always retained. When the retrieved cited pubdate lies
after the current date (the string comes straight from the remote pubdate
field, e.g. an in-press paper), the `pubdate > now` clause of line 73
discards the equal-pubdate record. -/
theorem c1_counterexample :
    process_doc true (some "2027-01-01") "2026-10-12"
      (JsonDoc.mk (some ["T"]) (some "B1") (some "2027-01-01"))
      = Except.ok none := by
  decide

/-- C1 amended: with `removeFalse=true` and a successfully retrieved
`citedPubdate`, a returned citing document is discarded (the loop's
`continue`) if and only if its pubdate string is lexicographically strictly
earlier than the cited pubdate or strictly later than the current date
string; a record whose pubdate equals the cited pubdate exactly is retained
provided the cited pubdate is not itself lexicographically later than the
current date (when it is, the `pubdate > now` clause discards the record,
see the counterexample). -/
theorem c1_amended_filter_boundary (t b c now p : String) (ts : List String) :
    (process_doc true (some c) now ⟨some (t :: ts), some b, some p⟩ = Except.ok none
      ↔ (p < c ∨ now < p)) ∧
    (p = c → ¬ now < c →
      process_doc true (some c) now ⟨some (t :: ts), some b, some p⟩ ≠ Except.ok none) := by
  refine ⟨process_doc_discarded_iff t b c now p ts, ?_⟩
  intro hpc hnc hdisc
  rcases (process_doc_discarded_iff t b c now p ts).mp hdisc with hlt | hgt
  · rw [hpc] at hlt
    exact lt_irrefl c hlt
  · rw [hpc] at hgt
    exact hnc hgt

/-- Witness for C1 (amended): cited pubdate `"2020-05-00"` not after the
current date `"2026-10-12"`, citing pubdate equal to the cited pubdate:
retained. -/
theorem c1_amended_filter_boundary_witness :
    process_doc true (some "2020-05-00") "2026-10-12"
      ⟨some ["Title"], some "2021Bib", some "2020-05-00"⟩ ≠ Except.ok none :=
  (c1_amended_filter_boundary "Title" "2021Bib" "2020-05-00" "2026-10-12" "2020-05-00" []).2
    rfl
    (fun h => absurd ((pyStrLt_iff "2026-10-12" "2020-05-00").mpr h) (by decide))

/-- C2: with `removeFalse=true`, when the pubdate lookup yields no date the
fetcher returns the empty result without raising and without ever issuing
the citing-papers query (the `Bool` component of the result, which records
whether that query was made, is `false`). -/
theorem c2_lookup_failure_aborts (inp : FetchInput)
    (h : get_ads_paper_pubdate inp.lookup = Except.ok none) :
    get_ads_citing_papers true inp = Except.ok (false, FetchResult.emptyList) := by
  simp [get_ads_citing_papers, h]

/-- Witness for C2: a 404 on the lookup yields no date, and the fetch
aborts with the empty result, never issuing the citing query. -/
theorem c2_lookup_failure_aborts_witness :
    get_ads_citing_papers true
      (FetchInput.mk (HttpResponse.mk 404 []) "2026-10-12" (HttpResponse.mk 200 []))
      = Except.ok (false, FetchResult.emptyList) :=
  c2_lookup_failure_aborts _ rfl

/-- C4: on an HTTP 200 response whose body matches no document, the lookup
raises IndexError (from `data["response"]["docs"][0]`) instead of returning
`None`, contradicting its own docstring ("None if not found"); only when
the first document merely lacks the `pubdate` field does it return `None`
as documented. -/
theorem c4_lookup_empty_docs_raises :
    get_ads_paper_pubdate (HttpResponse.mk 200 ([] : List JsonDoc))
        = Except.error "IndexError"
    ∧ get_ads_paper_pubdate (HttpResponse.mk 200 [JsonDoc.mk none none none])
        = Except.ok none :=
  ⟨rfl, rfl⟩


/-- The parsed month is always at least 1 (a 0 month is normalized to 1). -/
theorem parse_pubdate_month_pos (p : String) (y m : Nat)
    (h : parse_pubdate p = Except.ok (y, m)) : 1 ≤ m := by
  unfold parse_pubdate at h
  split at h
  next ys ms ds =>
    split at h
    next yn mn hy hm =>
      injection h with h
      injection h with h1 h2
      subst h2
      by_cases hmn : mn = 0
      · simp [hmn]
      · simp only [if_neg hmn]
        exact Nat.one_le_iff_ne_zero.mpr hmn
    next => nomatch h
  next => nomatch h

/-- Every record produced by the per-document step has month at least 1. -/
theorem process_doc_month_pos (rf : Bool) (cited : Option String) (now : String)
    (d : JsonDoc) (r : CitingPaperRecord)
    (h : process_doc rf cited now d = Except.ok (some r)) : 1 ≤ r.month := by
  unfold process_doc at h
  split at h
  next => nomatch h
  next => nomatch h
  next title rest =>
    split at h
    next => nomatch h
    next bib =>
      simp only [] at h
      split at h
      next => nomatch h
      next =>
        split at h
        next => nomatch h
        next y m hp =>
          injection h with h
          injection h with h
          subst h
          exact parse_pubdate_month_pos _ y _ hp

/-- Every record accumulated by the document loop has month at least 1. -/
theorem process_docs_month_pos (rf : Bool) (cited : Option String) (now : String)
    (ds : List JsonDoc) : ∀ (acc rows : List CitingPaperRecord),
    process_docs rf cited now acc ds = Except.ok rows →
    (∀ r ∈ acc, 1 ≤ r.month) → ∀ r ∈ rows, 1 ≤ r.month := by
  induction ds with
  | nil =>
    intro acc rows h hacc
    unfold process_docs at h
    injection h with h
    subst h
    exact hacc
  | cons d ds ih =>
    intro acc rows h hacc
    unfold process_docs at h
    split at h
    next => nomatch h
    next => exact ih acc rows h hacc
    next r hr =>
      refine ih (acc ++ [r]) rows h ?_
      intro x hx
      rcases List.mem_append.mp hx with hx | hx
      · exact hacc x hx
      · rw [List.mem_singleton.mp hx]
        exact process_doc_month_pos rf cited now d r hr

/-- Any table the fetcher returns is the result of the document loop run on
the citing-query body, with the cited date obtained from the lookup on the
`remove_false` path and unused otherwise. -/
theorem fetch_table_rows (rf : Bool) (inp : FetchInput) (b : Bool)
    (rows : List CitingPaperRecord)
    (h : get_ads_citing_papers rf inp = Except.ok (b, FetchResult.table rows)) :
    ∃ cited : Option String,
      process_docs rf cited inp.now [] inp.citing.body = Except.ok rows ∧
      (rf = false → cited = none) ∧
      (∀ c : String, cited = some c →
        get_ads_paper_pubdate inp.lookup = Except.ok (some c)) := by
  cases rf with
  | false =>
    unfold get_ads_citing_papers run_citing_query at h
    simp only [Bool.false_eq_true, if_false] at h
    split at h
    next hs =>
      split at h
      next => nomatch h
      next rows2 hrows =>
        injection h with h
        injection h with h1 h2
        injection h2 with h2
        subst h2
        exact ⟨none, hrows, fun _ => rfl, fun c hc => Option.noConfusion hc⟩
    next => simp at h
  | true =>
    unfold get_ads_citing_papers at h
    simp only [if_true] at h
    split at h
    next => nomatch h
    next hlk => simp at h
    next c hlk =>
      unfold run_citing_query at h
      split at h
      next hs =>
        split at h
        next => nomatch h
        next rows2 hrows =>
          injection h with h
          injection h with h1 h2
          injection h2 with h2
          subst h2
          refine ⟨some c, hrows, fun hf => Bool.noConfusion hf, ?_⟩
          intro c2 hc2
          injection hc2 with hc2
          subst hc2
          exact hlk
      next => simp at h

/-- C3 counterexample: with `remove_false=False`, a source month of 13 is
passed through unnormalized, so a returned record violates `month <= 12`. -/
theorem c3_counterexample :
    get_ads_citing_papers false
      (FetchInput.mk (HttpResponse.mk 200 []) "2026-10-12"
        (HttpResponse.mk 200 [JsonDoc.mk (some ["T"]) (some "Bib") (some "2020-13-01")]))
      = Except.ok (true, FetchResult.table [CitingPaperRecord.mk "T" "Bib" 2020 13])
    ∧ ¬ (CitingPaperRecord.mk "T" "Bib" 2020 13).month ≤ 12 :=
  ⟨by decide, by decide⟩

/-- C3 amended: every record in any table the fetcher returns has
`month ≥ 1` (a source month of 0 is normalized to 1); the upper bound 12 is
not enforced by the code — a source month above 12 is passed through
unchanged. -/
theorem c3_amended_month_pos (rf : Bool) (inp : FetchInput) (b : Bool)
    (rows : List CitingPaperRecord) (r : CitingPaperRecord)
    (h : get_ads_citing_papers rf inp = Except.ok (b, FetchResult.table rows))
    (hr : r ∈ rows) : 1 ≤ r.month := by
  obtain ⟨cited, hp, -, -⟩ := fetch_table_rows rf inp b rows h
  exact process_docs_month_pos rf cited inp.now inp.citing.body [] rows hp
    (by simp) r hr

/-- Witness for C3 (amended), at the month-13 record. -/
theorem c3_amended_month_pos_witness :
    1 ≤ (CitingPaperRecord.mk "T" "Bib" 2020 13).month :=
  c3_amended_month_pos false
    (FetchInput.mk (HttpResponse.mk 200 []) "2026-10-12"
      (HttpResponse.mk 200 [JsonDoc.mk (some ["T"]) (some "Bib") (some "2020-13-01")]))
    true [CitingPaperRecord.mk "T" "Bib" 2020 13] _ (by decide) (by decide)

/-- C5: when the citing-papers query comes back with a status other than
200 (e.g. 404), the fetcher prints a diagnostic and returns the empty
result; no exception is raised. (The hypothesis on the lookup only makes
the `remove_false=True` path reach the citing-papers query at all.) -/
theorem c5_non200_returns_empty (rf : Bool) (inp : FetchInput)
    (hq : rf = true →
      ∃ c : String, get_ads_paper_pubdate inp.lookup = Except.ok (some c))
    (hs : inp.citing.status_code ≠ 200) :
    get_ads_citing_papers rf inp = Except.ok (true, FetchResult.emptyList) := by
  cases rf with
  | false => simp [get_ads_citing_papers, run_citing_query, hs]
  | true =>
    obtain ⟨c, hc⟩ := hq rfl
    simp [get_ads_citing_papers, run_citing_query, hc, hs]

/-- Witness for C5: lookup succeeds, citing-papers query returns 404. -/
theorem c5_non200_returns_empty_witness :
    get_ads_citing_papers true
      (FetchInput.mk (HttpResponse.mk 200 [JsonDoc.mk none none (some "2020-01-01")])
        "2026-10-12" (HttpResponse.mk 404 []))
      = Except.ok (true, FetchResult.emptyList) :=
  c5_non200_returns_empty true _ (fun _ => ⟨"2020-01-01", rfl⟩) (by decide)

/-- C6 counterexample: a returned document whose `title` field is absent
makes the fetcher raise KeyError at `paper["title"][0]`; a missing field is
not always handled by defaulting or skipping. -/
theorem c6_counterexample :
    get_ads_citing_papers false
      (FetchInput.mk (HttpResponse.mk 200 []) "2026-10-12"
        (HttpResponse.mk 200 [JsonDoc.mk none (some "Bib") (some "2020-01-01")]))
      = Except.error "KeyError: title" := by
  decide

/-- C6 amended: only a missing `pubdate` is handled by defaulting — the
document is processed exactly as if its pubdate were the sentinel
`"Unknown"`; `title` (read as the first element of a title list) and
`bibcode` are accessed directly, so a document missing either raises
KeyError (and an empty title list raises IndexError). -/
theorem c6_amended_missing_fields (rf : Bool) (cited : Option String)
    (now t b p : String) (ts : List String) :
    process_doc rf cited now ⟨some (t :: ts), some b, none⟩
        = process_doc rf cited now ⟨some (t :: ts), some b, some "Unknown"⟩
    ∧ process_doc rf cited now ⟨none, some b, some p⟩
        = Except.error "KeyError: title"
    ∧ process_doc rf cited now ⟨some (t :: ts), none, some p⟩
        = Except.error "KeyError: bibcode"
    ∧ process_doc rf cited now ⟨some [], some b, some p⟩
        = Except.error "IndexError: title" :=
  ⟨rfl, rfl, rfl, rfl⟩

/-- C7 counterexample: when the fetcher returns its failure result — the
Python list `[]`, here because the pubdate lookup got a 404 — the plotter's
grouping step calls `.groupby` on a list and raises AttributeError. -/
theorem c7_counterexample :
    plot_ADS_num_citations_by_time
      (FetchInput.mk (HttpResponse.mk 404 []) "2026-10-12" (HttpResponse.mk 200 []))
      "month" = Except.error "AttributeError" := by
  decide

/-- C7 amended: when the fetcher returns an empty DataFrame (status 200
with zero citing documents), grouping and counting yield zero groups
without any fault; but the fetcher's failure paths return the Python list
`[]`, on which the grouping step raises AttributeError. -/
theorem c7_amended_empty_table_zero_bars (inp : FetchInput) (c res : String)
    (hl : get_ads_paper_pubdate inp.lookup = Except.ok (some c))
    (hs : inp.citing.status_code = 200) (hd : inp.citing.body = []) :
    plot_ADS_num_citations_by_time inp res = Except.ok [] := by
  unfold plot_ADS_num_citations_by_time get_ads_citing_papers run_citing_query
  rw [hl, hd]
  simp [hs, process_docs, plot_group_step, group_counts, sortKeys]

/-- Witness for C7 (amended): 200 with zero docs plots zero bars. -/
theorem c7_amended_empty_table_zero_bars_witness :
    plot_ADS_num_citations_by_time
      (FetchInput.mk (HttpResponse.mk 200 [JsonDoc.mk none none (some "2020-01-01")])
        "2026-10-12" (HttpResponse.mk 200 []))
      "month" = Except.ok [] :=
  c7_amended_empty_table_zero_bars _ "2020-01-01" "month" rfl rfl rfl

/-- Unfolding of `process_doc` on a document whose `pubdate` key is absent:
the sentinel `"Unknown"` is used in its place. -/
theorem process_doc_none_pubdate (rf : Bool) (cited : Option String)
    (now t b : String) (ts : List String) :
    process_doc rf cited now ⟨some (t :: ts), some b, none⟩ =
      if rf && discardDoc cited now "Unknown" then Except.ok none
      else
        match parse_pubdate "Unknown" with
        | Except.error e => Except.error e
        | Except.ok (y, m) => Except.ok (some ⟨t, b, y, m⟩) := rfl

/-- C8: a retained pubdate is parsed by splitting on `-` into an integer
year and month (day discarded), a month of 0 normalized to 1; any record
produced from a document carrying that pubdate has exactly those year and
month values. -/
theorem c8_parse_split (p : String) (ys ms ds : List Char) (yn mn : Nat)
    (hsplit : pySplit '-' p.data = [ys, ms, ds])
    (hy : charsToNat? ys = some yn) (hm : charsToNat? ms = some mn) :
    parse_pubdate p = Except.ok (yn, if mn = 0 then 1 else mn) ∧
    ∀ (rf : Bool) (cited : Option String) (now t b : String) (ts : List String)
      (r : CitingPaperRecord),
      process_doc rf cited now ⟨some (t :: ts), some b, some p⟩
          = Except.ok (some r) →
      r.year = yn ∧ r.month = (if mn = 0 then 1 else mn) := by
  have hp : parse_pubdate p = Except.ok (yn, if mn = 0 then 1 else mn) := by
    unfold parse_pubdate
    rw [hsplit]
    simp [hy, hm]
  refine ⟨hp, ?_⟩
  intro rf cited now t b ts r h
  obtain ⟨rt, rb, ry, rm⟩ := r
  rw [process_doc_some_pubdate] at h
  cases hb : rf && discardDoc cited now p with
  | true =>
    rw [hb] at h
    simp at h
  | false =>
    rw [hb] at h
    rw [hp] at h
    simp at h
    obtain ⟨ht, hbib, hy2, hm2⟩ := h
    exact ⟨hy2.symm, hm2.symm⟩

/-- Witness for C8: `"2021-03-00"` parses to year 2021, month 3, and
`"2022-00-00"` to year 2022, month 1 (0 normalized to 1). -/
theorem c8_parse_split_witness :
    parse_pubdate "2021-03-00" = Except.ok (2021, 3) ∧
    parse_pubdate "2022-00-00" = Except.ok (2022, 1) := by
  constructor
  · have h := (c8_parse_split "2021-03-00" "2021".data "03".data "00".data 2021 3
      (by decide) (by decide) (by decide)).1
    simpa using h
  · have h := (c8_parse_split "2022-00-00" "2022".data "00".data "00".data 2022 0
      (by decide) (by decide) (by decide)).1
    simpa using h

/-- The accumulator loop returns the accumulator followed by the
order-preserving filterMap of the per-document outcomes. -/
theorem process_docs_eq_filterMap (rf : Bool) (cited : Option String)
    (now : String) :
    ∀ (ds : List JsonDoc) (acc rows : List CitingPaperRecord),
      process_docs rf cited now acc ds = Except.ok rows →
      rows = acc ++ ds.filterMap (retained_record rf cited now) := by
  intro ds
  induction ds with
  | nil =>
    intro acc rows h
    unfold process_docs at h
    injection h with h
    subst h
    simp
  | cons d ds ih =>
    intro acc rows h
    unfold process_docs at h
    split at h
    next => nomatch h
    next hr =>
      rw [ih acc rows h]
      simp [List.filterMap_cons, retained_record, hr]
    next r hr =>
      rw [ih (acc ++ [r]) rows h]
      simp [List.filterMap_cons, retained_record, hr, List.append_assoc]

/-- C9: any table the fetcher returns lists the retained records in exactly
the order of the documents in the citing-query response — it is the
order-preserving `filterMap` of the per-document outcome over the response
body; no client-side re-sort happens. -/
theorem c9_order_preserved (rf : Bool) (inp : FetchInput) (b : Bool)
    (rows : List CitingPaperRecord)
    (h : get_ads_citing_papers rf inp = Except.ok (b, FetchResult.table rows)) :
    ∃ cited : Option String,
      rows = inp.citing.body.filterMap (retained_record rf cited inp.now) ∧
      (rf = false → cited = none) ∧
      (∀ c : String, cited = some c →
        get_ads_paper_pubdate inp.lookup = Except.ok (some c)) := by
  obtain ⟨cited, hp, hf, hc⟩ := fetch_table_rows rf inp b rows h
  refine ⟨cited, ?_, hf, hc⟩
  simpa using process_docs_eq_filterMap rf cited inp.now inp.citing.body [] rows hp

/-- Witness for C9 at a two-document response on the filtered path. -/
theorem c9_order_preserved_witness :
    ∃ cited : Option String,
      [CitingPaperRecord.mk "C" "B2" 2021 3] =
        List.filterMap (retained_record true cited "2026-10-12")
          [JsonDoc.mk (some ["A"]) (some "B1") (some "2019-12-00"),
           JsonDoc.mk (some ["C"]) (some "B2") (some "2021-03-00")] ∧
      (true = false → cited = none) ∧
      (∀ c : String, cited = some c →
        get_ads_paper_pubdate
            (HttpResponse.mk 200 [JsonDoc.mk none none (some "2020-05-00")])
          = Except.ok (some c)) :=
  c9_order_preserved true
    (FetchInput.mk (HttpResponse.mk 200 [JsonDoc.mk none none (some "2020-05-00")])
      "2026-10-12"
      (HttpResponse.mk 200 [JsonDoc.mk (some ["A"]) (some "B1") (some "2019-12-00"),
                            JsonDoc.mk (some ["C"]) (some "B2") (some "2021-03-00")]))
    true [CitingPaperRecord.mk "C" "B2" 2021 3] (by decide)

/-- C10: with `removeFalse=true` and a retrieved cited date, a document
whose pubdate field is absent is defaulted to `"Unknown"`, which compares
lexicographically above every `YYYY-MM-DD` current-date string, so the
range filter always discards such a document; the year/month parsing step
therefore never receives the sentinel on this path and cannot fail on it. -/
theorem c10_unknown_always_filtered (c now t b : String) (ts : List String)
    (hnow : isYMD now = true) :
    now < "Unknown" ∧
    process_doc true (some c) now ⟨some (t :: ts), some b, none⟩
      = Except.ok none := by
  have hu := ymd_pyLt_unknown now hnow
  refine ⟨(pyStrLt_iff now "Unknown").mp hu, ?_⟩
  have hb : discardDoc (some c) now "Unknown" = true := by
    simp [discardDoc, hu]
  rw [process_doc_none_pubdate, hb]
  simp

/-- Witness for C10 at the current date `"2026-10-12"`. -/
theorem c10_unknown_always_filtered_witness :
    ("2026-10-12" : String) < "Unknown" ∧
    process_doc true (some "2020-05-00") "2026-10-12"
      ⟨some ["T"], some "Bib2", none⟩ = Except.ok none :=
  c10_unknown_always_filtered "2020-05-00" "2026-10-12" "T" "Bib2" [] rfl

end AdsCitationUtils
